import Mathlib

/-!
Shallow embedding of the `loom` decision core, translated from
`crates/defi-events/src/txcompose.rs` and
`crates/defi-actors/src/health_monitor/pool_health_monitor.rs`.

Modelling conventions:
* `U256` values are modelled as `Nat`; the arithmetic the code performs on
  them (`*`, iterator `sum`) wraps modulo `2 ^ 256` (release-mode semantics
  of `alloy_primitives::U256`), so those operations carry an explicit
  `% 2 ^ 256`.  `u64` sums likewise wrap modulo `2 ^ 64`.  Division is floor
  division on `Nat`, as on `U256`.
* Addresses, transaction hashes and the identity of a `Token` are opaque
  values, modelled as `Nat` with decidable equality.
* `SwapLine`, `SwapStep`, `Token`, `Market` and transaction envelope encoding
  live in external crates (`defi_entities`, `alloy`); the spec declares them
  external collaborators.  They are modelled as records carrying exactly the
  values the code under study reads from them (the results of `abs_profit()`,
  `pools()`, `get_first_token()`, …); the two paired-step profit functions,
  being binary, are collected in `ExtFuns`, over which every theorem is
  universally quantified.
* Fallible code (`eyre::Result`) is modelled with `Except String`, the error
  message carrying the `eyre!` string.
-/

namespace Loom

/-- Model of `alloy_primitives::Address`: an opaque identifier. -/
abbrev Address := Nat

/-- Model of `alloy_primitives::TxHash`: an opaque identifier. -/
abbrev TxHash := Nat

/-- Model of `alloy_primitives::Bytes`: a byte string. -/
abbrev Bytes := List Nat

/-- Identity of a `defi_entities::Token` (`Arc<Token>` in the code); the
health of the embedding only needs a decidable equality on tokens, matching
the `HashSet` membership test the code performs. -/
abbrev Token := Nat

/-- Modulus of `alloy_primitives::U256` arithmetic. -/
def U256_MOD : Nat := 2 ^ 256

/-- Modulus of `u64` arithmetic. -/
def U64_MOD : Nat := 2 ^ 64

/-- `U256` multiplication (wraps in release builds). -/
def u256_mul (a b : Nat) : Nat := (a * b) % U256_MOD

/-- `U256` addition (wraps in release builds). -/
def u256_add (a b : Nat) : Nat := (a + b) % U256_MOD

/-- `Iterator::sum::<U256>()`: a left fold of wrapping addition from zero. -/
def u256_sum (l : List Nat) : Nat := l.foldl u256_add 0

/-- `u64` addition (wraps in release builds). -/
def u64_add (a b : Nat) : Nat := (a + b) % U64_MOD

/-- `Iterator::sum::<u64>()`: a left fold of wrapping addition from zero. -/
def u64_sum (l : List Nat) : Nat := l.foldl u64_add 0

/-- External `PoolWrapper` entity: the code only calls `get_address()`. -/
structure Pool where
  address : Address
deriving DecidableEq

/-- `PoolWrapper::get_address`. -/
def Pool.get_address (p : Pool) : Address := p.address

/-- External `defi_entities::SwapLine` entity, modelled by the values the
code under study reads from it: `abs_profit()`, `abs_profit_eth()`,
`gas_used`, `pools()` and `get_first_token()`. -/
structure SwapLine where
  abs_profit : Nat
  abs_profit_eth : Nat
  gas_used : Option Nat
  pools : List Pool
  first_token : Option Token
deriving DecidableEq

/-- `SwapLine::get_first_token`. -/
def SwapLine.get_first_token (l : SwapLine) : Option Token := l.first_token

/-- External `defi_entities::SwapStep` entity, modelled by the values the
code under study reads from it: `swap_line_vec()` and `get_first_token()`. -/
structure SwapStep where
  swap_line_vec : List SwapLine
  first_token : Option Token
deriving DecidableEq

/-- `SwapStep::get_first_token`. -/
def SwapStep.get_first_token (s : SwapStep) : Option Token := s.first_token

/-- The two external binary valuations `SwapStep::abs_profit(sp0, sp1)` and
`SwapStep::abs_profit_eth(sp0, sp1)` ("paired-step profit rule" in the spec);
results are `U256` values.  Theorems are quantified over this record. -/
structure ExtFuns where
  step_abs_profit : SwapStep → SwapStep → Nat
  step_abs_profit_eth : SwapStep → SwapStep → Nat

/-- External `alloy_rpc_types::Transaction`; the code under study only
converts it to a `TxEnvelope` (fallible) and RLP-encodes that, so the model
carries the combined result of that external conversion and encoding. -/
structure Transaction where
  envelope_rlp : Except String Bytes

/-- External `alloy_rpc_types::TransactionRequest`: opaque. -/
structure TransactionRequest where
  id : Nat
deriving DecidableEq

/-- `TxState` (txcompose.rs lines 20-26). -/
inductive TxState where
  | Stuffing (t : Transaction) : TxState
  | SignatureRequired (r : TransactionRequest) : TxState
  | ReadyForBroadcast (b : Bytes) : TxState
  | ReadyForBroadcastStuffing (b : Bytes) : TxState

/-- `TxState::rlp` (txcompose.rs lines 29-40); a pure query on `&self` (the
state is never mutated by it). -/
def TxState.rlp : TxState → Except String Bytes
  | TxState.Stuffing t => t.envelope_rlp
  | TxState.ReadyForBroadcast t => Except.ok t
  | TxState.ReadyForBroadcastStuffing t => Except.ok t
  | TxState.SignatureRequired _ => Except.error "NOT_READY_FOR_BROADCAST"

/-- `SwapType` (txcompose.rs lines 44-50). -/
inductive SwapType where
  | None : SwapType
  | BackrunSwapSteps (sp0 sp1 : SwapStep) : SwapType
  | BackrunSwapLine (line : SwapLine) : SwapType
  | Multiple (l : List SwapType) : SwapType

mutual

/-- `SwapType::abs_profit` (txcompose.rs lines 64-79). -/
def SwapType.abs_profit (ext : ExtFuns) : SwapType → Nat
  | SwapType.BackrunSwapLine path => path.abs_profit
  | SwapType.BackrunSwapSteps sp0 sp1 => ext.step_abs_profit sp0 sp1
  | SwapType.Multiple swap_vec => u256_sum (SwapType.abs_profit_vec ext swap_vec)
  | SwapType.None => 0

/-- The list `swap_vec.iter().map(|x| x.abs_profit())` of the `Multiple`
branch of `SwapType::abs_profit`. -/
def SwapType.abs_profit_vec (ext : ExtFuns) : List SwapType → List Nat
  | [] => []
  | x :: xs => SwapType.abs_profit ext x :: SwapType.abs_profit_vec ext xs

end

mutual

/-- `SwapType::pre_estimate_gas` (txcompose.rs lines 81-96). -/
def SwapType.pre_estimate_gas : SwapType → Nat
  | SwapType.BackrunSwapLine path => path.gas_used.getD 0
  | SwapType.BackrunSwapSteps sp0 sp1 =>
      u64_add (u64_sum (sp0.swap_line_vec.map (fun i => i.gas_used.getD 0)))
        (u64_sum (sp1.swap_line_vec.map (fun i => i.gas_used.getD 0)))
  | SwapType.Multiple swap_vec => u64_sum (SwapType.pre_estimate_gas_vec swap_vec)
  | SwapType.None => 0

/-- The list `swap_vec.iter().map(|x| x.pre_estimate_gas())` of the
`Multiple` branch of `SwapType::pre_estimate_gas`. -/
def SwapType.pre_estimate_gas_vec : List SwapType → List Nat
  | [] => []
  | x :: xs => SwapType.pre_estimate_gas x :: SwapType.pre_estimate_gas_vec xs

end

mutual

/-- `SwapType::abs_profit_eth` (txcompose.rs lines 98-113). -/
def SwapType.abs_profit_eth (ext : ExtFuns) : SwapType → Nat
  | SwapType.BackrunSwapLine path => path.abs_profit_eth
  | SwapType.BackrunSwapSteps sp0 sp1 => ext.step_abs_profit_eth sp0 sp1
  | SwapType.Multiple swap_vec => u256_sum (SwapType.abs_profit_eth_vec ext swap_vec)
  | SwapType.None => 0

/-- The list `swap_vec.iter().map(|x| x.abs_profit_eth())` of the `Multiple`
branch of `SwapType::abs_profit_eth`. -/
def SwapType.abs_profit_eth_vec (ext : ExtFuns) : List SwapType → List Nat
  | [] => []
  | x :: xs => SwapType.abs_profit_eth ext x :: SwapType.abs_profit_eth_vec ext xs

end

/-- `SwapType::get_first_token` (txcompose.rs lines 115-126). -/
def SwapType.get_first_token : SwapType → Option Token
  | SwapType.BackrunSwapLine swap_path => swap_path.get_first_token
  | SwapType.BackrunSwapSteps sp0 _sp1 => sp0.get_first_token
  | SwapType.Multiple _ => Option.none
  | SwapType.None => Option.none

/-- `Option::ok_or_eyre`. -/
def ok_or_eyre (o : Option Token) (msg : String) : Except String Token :=
  match o with
  | Option.some t => Except.ok t
  | Option.none => Except.error msg

/-- `collect::<Result<Vec<_>>>()` over an iterator of results: the first
error, or the list of all the `Ok` payloads. -/
def collect_results : List (Except String Token) → Except String (List Token)
  | [] => Except.ok []
  | x :: xs =>
    match x with
    | Except.error e => Except.error e
    | Except.ok t =>
      match collect_results xs with
      | Except.error e => Except.error e
      | Except.ok ts => Except.ok (t :: ts)

/-- The stateful `filter` of the `Multiple` branch of
`SwapType::get_first_tokens` (txcompose.rs lines 137-141): keep a child when
it has a first token that the mutable `seen : HashSet` has not recorded yet
(`t.is_some() && seen.insert(t.unwrap())`). -/
def filter_seen : List SwapType → List Token → List SwapType
  | [], _ => []
  | x :: xs, seen =>
    match x.get_first_token with
    | Option.some t =>
      if t ∈ seen then filter_seen xs seen else x :: filter_seen xs (t :: seen)
    | Option.none => filter_seen xs seen

/-- `SwapType::get_first_tokens` (txcompose.rs lines 128-145). -/
def SwapType.get_first_tokens : SwapType → Except String (List Token)
  | SwapType.BackrunSwapLine swap_path =>
      collect_results [ok_or_eyre swap_path.get_first_token "NO_FIRST_TOKEN"]
  | SwapType.BackrunSwapSteps sp0 _sp1 =>
      collect_results [ok_or_eyre sp0.get_first_token "NO_FIRST_TOKEN"]
  | SwapType.Multiple s =>
      collect_results
        ((filter_seen s []).map (fun x => ok_or_eyre x.get_first_token "x"))
  | SwapType.None => Except.error "NOT_SUPPORTED_SWAP_TYPE"

/-- The pool addresses contributed by one `SwapStep`:
`sp.swap_line_vec().iter().flat_map(|item| item.pools().iter().map(|p| p.get_address()))`. -/
def step_pool_addresses (sp : SwapStep) : List Address :=
  (sp.swap_line_vec.map (fun item => item.pools.map Pool.get_address)).flatten

mutual

/-- `SwapType::get_pool_address_vec` (txcompose.rs lines 147-160).  Note that
the `BackrunSwapSteps` branch reads `sp0` only; `_sp1` is ignored by the
code. -/
def SwapType.get_pool_address_vec : SwapType → List Address
  | SwapType.BackrunSwapSteps sp0 _sp1 =>
      (sp0.swap_line_vec.map (fun item => item.pools.map Pool.get_address)).flatten
  | SwapType.BackrunSwapLine swap_line => swap_line.pools.map Pool.get_address
  | SwapType.Multiple swap_vec =>
      (SwapType.get_pool_address_vec_vec swap_vec).flatten
  | SwapType.None => []

/-- The list `swap_vec.iter().map(|x| x.get_pool_address_vec())` whose
concatenation is the `Multiple` branch (`flat_map`) of
`SwapType::get_pool_address_vec`. -/
def SwapType.get_pool_address_vec_vec : List SwapType → List (List Address)
  | [] => []
  | x :: xs => SwapType.get_pool_address_vec x :: SwapType.get_pool_address_vec_vec xs

end

/-- `RlpState` (txcompose.rs lines 187-192). -/
inductive RlpState where
  | Stuffing (b : Bytes) : RlpState
  | Backrun (b : Bytes) : RlpState
  | None : RlpState

/-- External `defi_entities::TxSigner`: opaque. -/
structure TxSigner where
  id : Nat
deriving DecidableEq

/-- `TxComposeData` (txcompose.rs lines 210-233).  Fields whose contents are
produced and consumed only by external collaborators (`opcodes`, the EVM
state snapshots, `poststate_update`) are modelled as opaque optional values;
no code under study reads inside them. -/
structure TxComposeData where
  signer : Option TxSigner
  nonce : Nat
  eth_balance : Nat
  value : Nat
  gas : Nat
  gas_fee : Nat
  priority_gas_fee : Nat
  stuffing_txs_hashes : List TxHash
  stuffing_txs : List Transaction
  block : Nat
  block_timestamp : Nat
  swap : SwapType
  opcodes : Option Nat
  tx_bundle : Option (List TxState)
  rlp_bundle : Option (List RlpState)
  prestate : Option Nat
  poststate : Option Nat
  poststate_update : Option Nat
  origin : Option String
  tips_pct : Option Nat
  tips : Option Nat

/-- `impl Default for TxComposeData` (txcompose.rs lines 277-303). -/
def TxComposeData.default : TxComposeData where
  signer := Option.none
  nonce := 0
  eth_balance := 0
  value := 0
  gas := 0
  gas_fee := 0
  priority_gas_fee := 0
  stuffing_txs_hashes := []
  stuffing_txs := []
  block := 0
  block_timestamp := 0
  swap := SwapType.None
  opcodes := Option.none
  tx_bundle := Option.none
  rlp_bundle := Option.none
  prestate := Option.none
  poststate := Option.none
  poststate_update := Option.none
  origin := Option.none
  tips_pct := Option.none
  tips := Option.none

/-- `TxComposeData::same_stuffing` (txcompose.rs lines 237-249). -/
def TxComposeData.same_stuffing (d : TxComposeData)
    (others_stuffing_txs_hashes : List TxHash) : Bool :=
  let tx_len := d.stuffing_txs_hashes.length
  if tx_len ≠ others_stuffing_txs_hashes.length then
    false
  else
    if tx_len = 0 then
      true
    else
      others_stuffing_txs_hashes.all (fun x => d.stuffing_txs_hashes.contains x)

/-- `TxComposeData::cross_pools` (txcompose.rs lines 251-253). -/
def TxComposeData.cross_pools (d : TxComposeData) (others_pools : List Address) : Bool :=
  (d.swap.get_pool_address_vec).any (fun x => others_pools.contains x)

/-- `TxComposeData::first_stuffing_hash` (txcompose.rs lines 256-258);
`TxHash::default()` is the zero hash. -/
def TxComposeData.first_stuffing_hash (d : TxComposeData) : TxHash :=
  match d.stuffing_txs_hashes.head? with
  | Option.some x => x
  | Option.none => 0

/-- `TxComposeData::tips_gas_ratio` (txcompose.rs lines 260-266). -/
def TxComposeData.tips_gas_ratio (d : TxComposeData) : Nat :=
  if d.gas = 0 then 0 else d.tips.getD 0 / d.gas

/-- `TxComposeData::profit_eth_gas_ratio` (txcompose.rs lines 268-274). -/
def TxComposeData.profit_eth_gas_ratio (ext : ExtFuns) (d : TxComposeData) : Nat :=
  if d.gas = 0 then 0 else d.swap.abs_profit_eth ext / d.gas

/-- `TxComposeBest` (txcompose.rs lines 306-313). -/
structure TxComposeBest where
  validity_pct : Option Nat
  best_profit_swap : Option TxComposeData
  best_profit_gas_ratio_swap : Option TxComposeData
  best_tips_swap : Option TxComposeData
  best_tips_gas_ratio_swap : Option TxComposeData

/-- `impl Default for TxComposeBest` (txcompose.rs lines 315-325). -/
def TxComposeBest.default : TxComposeBest where
  validity_pct := Option.none
  best_profit_swap := Option.none
  best_profit_gas_ratio_swap := Option.none
  best_tips_swap := Option.none
  best_tips_gas_ratio_swap := Option.none

/-- `TxComposeBest::new_with_pct` (txcompose.rs lines 328-333). -/
def TxComposeBest.new_with_pct (validity_pct : Nat) : TxComposeBest :=
  { TxComposeBest.default with validity_pct := Option.some validity_pct }

/-- First block of `TxComposeBest::check` (txcompose.rs lines 338-358): the
absolute-profit dimension, scored by `swap.abs_profit_eth()`.  Takes the
current `is_ok` accumulator and returns the updated `self` and `is_ok`. -/
def profit_block (ext : ExtFuns) (self : TxComposeBest) (request : TxComposeData)
    (is_ok : Bool) : TxComposeBest × Bool :=
  match self.best_profit_swap with
  | Option.none => ({ self with best_profit_swap := Option.some request }, true)
  | Option.some best_swap =>
    if best_swap.swap.abs_profit_eth ext < request.swap.abs_profit_eth ext then
      ({ self with best_profit_swap := Option.some request }, true)
    else
      match self.validity_pct with
      | Option.some pct =>
        if u256_mul (best_swap.swap.abs_profit_eth ext) pct / 10000
            < request.swap.abs_profit_eth ext then
          (self, true)
        else
          (self, is_ok)
      | Option.none => (self, is_ok)

/-- Second block of `TxComposeBest::check` (txcompose.rs lines 360-382): the
tip-amount dimension, evaluated only when `request.tips.is_some()`. -/
def tips_block (self : TxComposeBest) (request : TxComposeData)
    (is_ok : Bool) : TxComposeBest × Bool :=
  if request.tips.isSome then
    match self.best_tips_swap with
    | Option.some best_swap =>
      if best_swap.tips.getD 0 < request.tips.getD 0 then
        ({ self with best_tips_swap := Option.some request }, true)
      else
        match self.validity_pct with
        | Option.some pct =>
          if u256_mul (best_swap.tips.getD 0) pct / 10000 < request.tips.getD 0 then
            (self, true)
          else
            (self, is_ok)
        | Option.none => (self, is_ok)
    | Option.none => ({ self with best_tips_swap := Option.some request }, true)
  else
    (self, is_ok)

/-- Third block of `TxComposeBest::check` (txcompose.rs lines 385-406): the
tip/gas-ratio dimension.  In the source this block and the next one sit
under a single `if request.gas != 0`; here each carries its own copy of that
guard, which is equivalent since the guard only reads `request`. -/
def tips_gas_block (self : TxComposeBest) (request : TxComposeData)
    (is_ok : Bool) : TxComposeBest × Bool :=
  if request.gas ≠ 0 then
    match self.best_tips_gas_ratio_swap with
    | Option.some best_swap =>
      if best_swap.tips_gas_ratio < request.tips_gas_ratio then
        ({ self with best_tips_gas_ratio_swap := Option.some request }, true)
      else
        match self.validity_pct with
        | Option.some pct =>
          if u256_mul best_swap.tips_gas_ratio pct / 10000 < request.tips_gas_ratio then
            (self, true)
          else
            (self, is_ok)
        | Option.none => (self, is_ok)
    | Option.none => ({ self with best_tips_gas_ratio_swap := Option.some request }, true)
  else
    (self, is_ok)

/-- Fourth block of `TxComposeBest::check` (txcompose.rs lines 408-428): the
profit/gas-ratio dimension, under the same `request.gas != 0` guard as the
third block. -/
def profit_gas_block (ext : ExtFuns) (self : TxComposeBest) (request : TxComposeData)
    (is_ok : Bool) : TxComposeBest × Bool :=
  if request.gas ≠ 0 then
    match self.best_profit_gas_ratio_swap with
    | Option.some best_swap =>
      if best_swap.profit_eth_gas_ratio ext < request.profit_eth_gas_ratio ext then
        ({ self with best_profit_gas_ratio_swap := Option.some request }, true)
      else
        match self.validity_pct with
        | Option.some pct =>
          if u256_mul (best_swap.profit_eth_gas_ratio ext) pct / 10000
              < request.profit_eth_gas_ratio ext then
            (self, true)
          else
            (self, is_ok)
        | Option.none => (self, is_ok)
    | Option.none => ({ self with best_profit_gas_ratio_swap := Option.some request }, true)
  else
    (self, is_ok)

/-- `TxComposeBest::check` (txcompose.rs lines 335-431): `is_ok` starts
`false` and threads through the four dimension blocks in source order;
`&mut self` becomes explicit state passing. -/
def TxComposeBest.check (ext : ExtFuns) (self : TxComposeBest)
    (request : TxComposeData) : TxComposeBest × Bool :=
  let r1 := profit_block ext self request false
  let r2 := tips_block r1.1 request r1.2
  let r3 := tips_gas_block r2.1 request r2.2
  let r4 := profit_gas_block ext r3.1 request r3.2
  r4

/-- Repeated calls of `TxComposeBest::check` on one selector instance,
returning the final state and the per-candidate results in order. -/
def run_check (ext : ExtFuns) (s : TxComposeBest) :
    List TxComposeData → TxComposeBest × List Bool
  | [] => (s, [])
  | r :: rs =>
    let c := s.check ext r
    let rest := run_check ext c.1 rs
    (rest.1, c.2 :: rest.2)

/-- Modelled from the spec: "for `Multiple`, the deduplicated list of entry
tokens across children, comparing by identity … tokenless children are
silently skipped".  The entry tokens of the children in order, skipping
children without one, keeping the first occurrence of each token; `seen`
accumulates the tokens already kept. -/
def spec_first_tokens : List SwapType → List Token → List Token
  | [], _ => []
  | x :: xs, seen =>
    match x.get_first_token with
    | Option.some t =>
      if t ∈ seen then spec_first_tokens xs seen else t :: spec_first_tokens xs (t :: seen)
    | Option.none => spec_first_tokens xs seen

/-- A concrete `ExtFuns` instance for witnesses: both external paired-step
valuations return zero. -/
def ext0 : ExtFuns := ⟨fun _ _ => 0, fun _ _ => 0⟩

/-- A concrete `SwapLine` whose profit valuations are both `p`, with no gas
estimate, no pools and no first token. -/
def line_with_profit (p : Nat) : SwapLine :=
  { abs_profit := p, abs_profit_eth := p, gas_used := Option.none, pools := [],
    first_token := Option.none }

/-- A concrete candidate whose plan is a single swap line of profit `p`; no
tips, zero gas. -/
def profit_candidate (p : Nat) : TxComposeData :=
  { TxComposeData.default with swap := SwapType.BackrunSwapLine (line_with_profit p) }

/-- A concrete `SwapStep` with one swap line through the single pool `a`. -/
def step_with_pool (a : Address) : SwapStep :=
  { swap_line_vec :=
      [{ abs_profit := 0, abs_profit_eth := 0, gas_used := Option.none,
         pools := [{ address := a }], first_token := Option.none }],
    first_token := Option.none }

/-- A concrete `SwapLine` whose entry token is `t`. -/
def line_with_token (t : Token) : SwapLine :=
  { abs_profit := 0, abs_profit_eth := 0, gas_used := Option.none, pools := [],
    first_token := Option.some t }

/-- A concrete candidate with stuffing hashes `[0, 1]`. -/
def two_hash_candidate : TxComposeData :=
  { TxComposeData.default with stuffing_txs_hashes := [0, 1] }

/-- A concrete candidate with a unit tip, unit gas and a profit-1 plan: every
dimension of the selector applies to it. -/
def full_candidate : TxComposeData :=
  { TxComposeData.default with
      swap := SwapType.BackrunSwapLine (line_with_profit 1)
      tips := Option.some 1
      gas := 1 }

/-- A concrete candidate with non-zero gas and no tip. -/
def gas_only_candidate : TxComposeData :=
  { TxComposeData.default with gas := 1 }

/-- The selector state after a tolerance-9000 selector has admitted a first
candidate of profit 100. -/
def best100 : TxComposeBest :=
  ((TxComposeBest.new_with_pct 9000).check ext0 (profit_candidate 100)).1

/-- The selector state after a fresh selector has admitted `full_candidate`:
all four best slots are occupied. -/
def s_full : TxComposeBest := (TxComposeBest.default.check ext0 full_candidate).1

/-- The selector state right after a fresh (no-tolerance) selector has seen
its first candidate `r`. -/
def first_best (ext : ExtFuns) (r : TxComposeData) : TxComposeBest :=
  (TxComposeBest.default.check ext r).1

/-- A left fold of addition-mod-`M` starting from a reduced accumulator
computes the sum mod `M`. -/
theorem foldl_wrap_add (M : Nat) (l : List Nat) (a : Nat) :
    l.foldl (fun x y => (x + y) % M) (a % M) = (a + l.sum) % M := by
  induction l generalizing a with
  | nil => simp
  | cons b t ih =>
    simp only [List.foldl_cons, List.sum_cons]
    rw [Nat.mod_add_mod, ih (a + b), Nat.add_assoc]

/-- The wrapping `U256` iterator sum is the plain sum reduced mod `2 ^ 256`. -/
theorem u256_sum_eq (l : List Nat) : u256_sum l = l.sum % U256_MOD := by
  have h := foldl_wrap_add U256_MOD l 0
  rw [Nat.zero_mod, Nat.zero_add] at h
  exact h

/-- The wrapping `u64` iterator sum is the plain sum reduced mod `2 ^ 64`. -/
theorem u64_sum_eq (l : List Nat) : u64_sum l = l.sum % U64_MOD := by
  have h := foldl_wrap_add U64_MOD l 0
  rw [Nat.zero_mod, Nat.zero_add] at h
  exact h

/-- The auxiliary list of `SwapType.abs_profit` is a `map`. -/
theorem abs_profit_vec_eq_map (ext : ExtFuns) (l : List SwapType) :
    SwapType.abs_profit_vec ext l = l.map (SwapType.abs_profit ext) := by
  induction l with
  | nil => rfl
  | cons x xs ih => simp [SwapType.abs_profit_vec, ih]

/-- The auxiliary list of `SwapType.abs_profit_eth` is a `map`. -/
theorem abs_profit_eth_vec_eq_map (ext : ExtFuns) (l : List SwapType) :
    SwapType.abs_profit_eth_vec ext l = l.map (SwapType.abs_profit_eth ext) := by
  induction l with
  | nil => rfl
  | cons x xs ih => simp [SwapType.abs_profit_eth_vec, ih]

/-- The auxiliary list of `SwapType.pre_estimate_gas` is a `map`. -/
theorem pre_estimate_gas_vec_eq_map (l : List SwapType) :
    SwapType.pre_estimate_gas_vec l = l.map SwapType.pre_estimate_gas := by
  induction l with
  | nil => rfl
  | cons x xs ih => simp [SwapType.pre_estimate_gas_vec, ih]

/-- The auxiliary list of `SwapType.get_pool_address_vec` is a `map`. -/
theorem get_pool_address_vec_vec_eq_map (l : List SwapType) :
    SwapType.get_pool_address_vec_vec l = l.map SwapType.get_pool_address_vec := by
  induction l with
  | nil => rfl
  | cons x xs ih => simp [SwapType.get_pool_address_vec_vec, ih]

/-- C4: `abs_profit`, `abs_profit_eth` and `pre_estimate_gas` are total,
return zero for `SwapType::None` and for `Multiple([])`, and on
`Multiple(children)` each equals the sum of that same valuation over the
children (the sum being the wrapping machine sum the code computes:
the plain sum reduced modulo the `U256` resp. `u64` modulus). -/
theorem valuations_zero_and_sum_hom (ext : ExtFuns) :
    SwapType.abs_profit ext SwapType.None = 0 ∧
    SwapType.abs_profit_eth ext SwapType.None = 0 ∧
    SwapType.pre_estimate_gas SwapType.None = 0 ∧
    SwapType.abs_profit ext (SwapType.Multiple []) = 0 ∧
    SwapType.abs_profit_eth ext (SwapType.Multiple []) = 0 ∧
    SwapType.pre_estimate_gas (SwapType.Multiple []) = 0 ∧
    (∀ children : List SwapType,
      SwapType.abs_profit ext (SwapType.Multiple children)
          = (children.map (SwapType.abs_profit ext)).sum % U256_MOD ∧
      SwapType.abs_profit_eth ext (SwapType.Multiple children)
          = (children.map (SwapType.abs_profit_eth ext)).sum % U256_MOD ∧
      SwapType.pre_estimate_gas (SwapType.Multiple children)
          = (children.map SwapType.pre_estimate_gas).sum % U64_MOD) := by
  refine ⟨rfl, rfl, rfl, rfl, rfl, rfl, fun children => ⟨?_, ?_, ?_⟩⟩
  · rw [SwapType.abs_profit, abs_profit_vec_eq_map, u256_sum_eq]
  · rw [SwapType.abs_profit_eth, abs_profit_eth_vec_eq_map, u256_sum_eq]
  · rw [SwapType.pre_estimate_gas, pre_estimate_gas_vec_eq_map, u64_sum_eq]

/-- C8: `TxState::rlp` fails with the not-ready error on `SignatureRequired`
and returns exactly the stored bytes on `ReadyForBroadcast` and
`ReadyForBroadcastStuffing`.  In the embedding `rlp` is a pure function of
the state (it takes `&self` in the code), so every call trivially leaves the
state unchanged. -/
theorem rlp_ready_and_not_ready :
    (∀ req : TransactionRequest,
      TxState.rlp (TxState.SignatureRequired req)
          = Except.error "NOT_READY_FOR_BROADCAST") ∧
    (∀ b : Bytes,
      TxState.rlp (TxState.ReadyForBroadcast b) = Except.ok b ∧
      TxState.rlp (TxState.ReadyForBroadcastStuffing b) = Except.ok b) :=
  ⟨fun _ => rfl, fun _ => ⟨rfl, rfl⟩⟩

/-- C5 counterexample: the claim says `get_pool_address_vec` on
`BackrunSwapSteps` includes the pools of both steps; the code reads only the
first step.  Concretely, with step 0 through pool 1 and step 1 through pool
2, pool 2 is a pool of the second step yet absent from the result. -/
theorem pool_vec_misses_second_step :
    2 ∈ step_pool_addresses (step_with_pool 2) ∧
    2 ∉ (SwapType.BackrunSwapSteps (step_with_pool 1)
          (step_with_pool 2)).get_pool_address_vec := by
  decide

/-- C5 (amended): `get_pool_address_vec` returns the touched pool addresses
in traversal order with duplicates permitted, where for `BackrunSwapSteps`
only the first step's pools are traversed (`_sp1` is ignored by the code);
for `BackrunSwapLine` it is the line's pools in order, for `Multiple` the
concatenation over children, and for `None` the empty list. -/
theorem pool_vec_branches :
    (∀ sp0 sp1 : SwapStep,
      (SwapType.BackrunSwapSteps sp0 sp1).get_pool_address_vec
          = step_pool_addresses sp0) ∧
    (∀ line : SwapLine,
      (SwapType.BackrunSwapLine line).get_pool_address_vec
          = line.pools.map Pool.get_address) ∧
    (∀ children : List SwapType,
      (SwapType.Multiple children).get_pool_address_vec
          = (children.map SwapType.get_pool_address_vec).flatten) ∧
    SwapType.None.get_pool_address_vec = [] := by
  refine ⟨fun sp0 sp1 => rfl, fun line => rfl, fun children => ?_, rfl⟩
  rw [SwapType.get_pool_address_vec, get_pool_address_vec_vec_eq_map]

/-- C6 counterexample: `same_stuffing` is not "same set of hashes".  The
candidate with hashes `[0, 1]` compared against `[0, 0]` returns `true`
(equal lengths, and every element of `[0, 0]` occurs in `[0, 1]`) although
the two lists do not have the same set of elements: `1` is in the first and
not in the second. -/
theorem same_stuffing_not_set_equality :
    two_hash_candidate.same_stuffing [0, 0] = true ∧
    ¬ (∀ x : TxHash,
        x ∈ two_hash_candidate.stuffing_txs_hashes ↔ x ∈ ([0, 0] : List TxHash)) := by
  constructor
  · rfl
  · intro h
    have h1 : (1 : TxHash) ∈ two_hash_candidate.stuffing_txs_hashes := by
      show (1 : TxHash) ∈ [0, 1]
      simp
    have h2 := (h 1).mp h1
    simp at h2

/-- C6 (amended): `same_stuffing` returns `true` exactly when the two hash
lists have equal length and every hash of the other list occurs in this
candidate's list.  Consequently it is order-insensitive (a permutation of
the candidate's hashes compares `true`), two empty lists compare `true`, and
lists of differing lengths are never the same — but equal-length lists whose
underlying sets differ can still compare `true` when one repeats elements of
the other. -/
theorem same_stuffing_characterization :
    (∀ (d : TxComposeData) (others : List TxHash),
      d.same_stuffing others = true ↔
        d.stuffing_txs_hashes.length = others.length ∧
          ∀ x ∈ others, x ∈ d.stuffing_txs_hashes) ∧
    (∀ (d : TxComposeData) (others : List TxHash),
      others.Perm d.stuffing_txs_hashes → d.same_stuffing others = true) ∧
    (∀ (d : TxComposeData) (others : List TxHash),
      d.stuffing_txs_hashes.length ≠ others.length → d.same_stuffing others = false) ∧
    (∀ d : TxComposeData, d.stuffing_txs_hashes = [] → d.same_stuffing [] = true) := by
  have hiff : ∀ (d : TxComposeData) (others : List TxHash),
      d.same_stuffing others = true ↔
        d.stuffing_txs_hashes.length = others.length ∧
          ∀ x ∈ others, x ∈ d.stuffing_txs_hashes := by
    intro d others
    unfold TxComposeData.same_stuffing
    by_cases hne : d.stuffing_txs_hashes.length ≠ others.length
    · rw [if_pos hne]
      simp only [Bool.false_eq_true, false_iff]
      intro hcon
      exact hne hcon.1
    · have heq : d.stuffing_txs_hashes.length = others.length := not_not.mp hne
      rw [if_neg hne]
      by_cases hz : d.stuffing_txs_hashes.length = 0
      · have hdnil : d.stuffing_txs_hashes = [] := List.length_eq_zero.mp hz
        have honil : others = [] := by
          have h0 : others.length = 0 := by omega
          exact List.length_eq_zero.mp h0
        simp [hz, hdnil, honil]
      · rw [if_neg hz, List.all_eq_true]
        constructor
        · intro h
          refine ⟨heq, fun x hx => ?_⟩
          exact List.elem_iff.mp (h x hx)
        · intro h x hx
          exact List.elem_iff.mpr (h.2 x hx)
  refine ⟨hiff, ?_, ?_, ?_⟩
  · intro d others hperm
    exact (hiff d others).mpr ⟨hperm.length_eq.symm, fun x hx => hperm.subset hx⟩
  · intro d others hne
    cases h : d.same_stuffing others with
    | false => rfl
    | true =>
      exact absurd ((hiff d others).mp h).1 hne
  · intro d hd
    exact (hiff d []).mpr ⟨by simp [hd], by simp⟩

/-- C6 witness: the characterization applied at concrete inputs — `[1, 0]`
is a permutation of `[0, 1]` and compares the same; `[0]` has a different
length and does not; two empty lists compare the same. -/
theorem same_stuffing_characterization_witness :
    two_hash_candidate.same_stuffing [1, 0] = true ∧
    two_hash_candidate.same_stuffing [0] = false ∧
    TxComposeData.default.same_stuffing [] = true := by
  refine ⟨?_, ?_, ?_⟩
  · exact same_stuffing_characterization.2.1 two_hash_candidate [1, 0] (by decide)
  · exact same_stuffing_characterization.2.2.1 two_hash_candidate [0] (by decide)
  · exact same_stuffing_characterization.2.2.2 TxComposeData.default rfl

/-- `ok_or_eyre` on a present value. -/
theorem ok_or_eyre_some (t : Token) (m : String) :
    ok_or_eyre (Option.some t) m = Except.ok t := rfl

/-- Unfolding `collect_results` on an `Ok` head. -/
theorem collect_results_cons_ok (t : Token) (l : List (Except String Token)) :
    collect_results (Except.ok t :: l)
      = match collect_results l with
        | Except.error e => Except.error e
        | Except.ok ts => Except.ok (t :: ts) := rfl

/-- The `Multiple` branch of `get_first_tokens` never fails: the stateful
filter keeps only children whose first token exists and is new, so the
subsequent `collect` sees only `Ok` values and produces exactly the
first-occurrence-deduplicated token list. -/
theorem collect_filter_seen (cs : List SwapType) (seen : List Token) :
    collect_results ((filter_seen cs seen).map (fun x => ok_or_eyre x.get_first_token "x"))
      = Except.ok (spec_first_tokens cs seen) := by
  induction cs generalizing seen with
  | nil => rfl
  | cons x xs ih =>
    cases hx : x.get_first_token with
    | none => simp [filter_seen, spec_first_tokens, hx, ih]
    | some t =>
      by_cases hmem : t ∈ seen
      · simp [filter_seen, spec_first_tokens, hx, hmem, ih]
      · rw [show filter_seen (x :: xs) seen = x :: filter_seen xs (t :: seen) from by
              rw [filter_seen, hx]; simp [hmem],
            show spec_first_tokens (x :: xs) seen
                = t :: spec_first_tokens xs (t :: seen) from by
              rw [spec_first_tokens, hx]; simp [hmem],
            List.map_cons, hx, ok_or_eyre_some, collect_results_cons_ok,
            ih (t :: seen)]

/-- C9 counterexample: for `SwapType::None` the call does fail, but with the
`NOT_SUPPORTED_SWAP_TYPE` condition, not the `NO_FIRST_TOKEN` condition the
claim names. -/
theorem get_first_tokens_none_message :
    SwapType.None.get_first_tokens = Except.error "NOT_SUPPORTED_SWAP_TYPE" ∧
    SwapType.None.get_first_tokens ≠ Except.error "NO_FIRST_TOKEN" := by
  refine ⟨rfl, ?_⟩
  intro h
  rw [show SwapType.None.get_first_tokens
        = Except.error "NOT_SUPPORTED_SWAP_TYPE" from rfl] at h
  exact absurd (Except.error.inj h) (by decide)

/-- C9 (amended): `get_first_tokens` fails with the "not supported swap
type" condition for `SwapType::None`, fails with the "no first token"
condition for a `BackrunSwapLine` or `BackrunSwapSteps` plan whose first
token is absent, and for `Multiple` never fails on account of tokenless
children: they are skipped, and the result is the remaining children's
entry tokens deduplicated by identity, keeping first occurrences. -/
theorem get_first_tokens_spec :
    SwapType.None.get_first_tokens = Except.error "NOT_SUPPORTED_SWAP_TYPE" ∧
    (∀ line : SwapLine, line.first_token = Option.none →
      (SwapType.BackrunSwapLine line).get_first_tokens
          = Except.error "NO_FIRST_TOKEN") ∧
    (∀ sp0 sp1 : SwapStep, sp0.first_token = Option.none →
      (SwapType.BackrunSwapSteps sp0 sp1).get_first_tokens
          = Except.error "NO_FIRST_TOKEN") ∧
    (∀ children : List SwapType,
      (SwapType.Multiple children).get_first_tokens
          = Except.ok (spec_first_tokens children [])) := by
  refine ⟨rfl, ?_, ?_, ?_⟩
  · intro line h
    simp [SwapType.get_first_tokens, SwapLine.get_first_token, h, ok_or_eyre,
      collect_results]
  · intro sp0 sp1 h
    simp [SwapType.get_first_tokens, SwapStep.get_first_token, h, ok_or_eyre,
      collect_results]
  · intro children
    exact collect_filter_seen children []

/-- C9 witness: a `Multiple` of a tokenless child and two children sharing
token 7 and one child with token 9 yields `[7, 9]`; a tokenless line fails
with the no-first-token condition. -/
theorem get_first_tokens_spec_witness :
    (SwapType.Multiple
        [SwapType.BackrunSwapLine (line_with_profit 0),
         SwapType.BackrunSwapLine (line_with_token 7),
         SwapType.BackrunSwapLine (line_with_token 7),
         SwapType.BackrunSwapLine (line_with_token 9)]).get_first_tokens
      = Except.ok [7, 9] ∧
    (SwapType.BackrunSwapLine (line_with_profit 0)).get_first_tokens
      = Except.error "NO_FIRST_TOKEN" := by
  constructor
  · rw [get_first_tokens_spec.2.2.2]
    rfl
  · exact get_first_tokens_spec.2.1 (line_with_profit 0) rfl

/-- An empty profit slot is filled by the candidate and accepts it. -/
theorem profit_block_none (ext : ExtFuns) (s : TxComposeBest) (r : TxComposeData)
    (ok : Bool) (hb : s.best_profit_swap = Option.none) :
    profit_block ext s r ok = ({ s with best_profit_swap := Option.some r }, true) := by
  simp [profit_block, hb]

/-- A strictly more profitable candidate replaces the profit best and is
accepted. -/
theorem profit_block_gt (ext : ExtFuns) (s : TxComposeBest) (r : TxComposeData)
    (ok : Bool) (b : TxComposeData) (hb : s.best_profit_swap = Option.some b)
    (hlt : b.swap.abs_profit_eth ext < r.swap.abs_profit_eth ext) :
    profit_block ext s r ok = ({ s with best_profit_swap := Option.some r }, true) := by
  simp [profit_block, hb, hlt]

/-- With a tolerance configured, a candidate that does not strictly exceed
the profit best leaves the state unchanged and is accepted exactly when it
clears the tolerance band. -/
theorem profit_block_tol (ext : ExtFuns) (s : TxComposeBest) (r : TxComposeData)
    (ok : Bool) (b : TxComposeData) (pct : Nat)
    (hb : s.best_profit_swap = Option.some b)
    (hlt : ¬ b.swap.abs_profit_eth ext < r.swap.abs_profit_eth ext)
    (hp : s.validity_pct = Option.some pct) :
    profit_block ext s r ok
      = (s, if u256_mul (b.swap.abs_profit_eth ext) pct / 10000
              < r.swap.abs_profit_eth ext then true else ok) := by
  simp [profit_block, hb, hlt, hp]
  by_cases hc : u256_mul (b.swap.abs_profit_eth ext) pct / 10000
      < r.swap.abs_profit_eth ext <;> simp [hc]

/-- Without a tolerance, a candidate that does not strictly exceed the
profit best changes nothing. -/
theorem profit_block_nopct (ext : ExtFuns) (s : TxComposeBest) (r : TxComposeData)
    (ok : Bool) (b : TxComposeData) (hb : s.best_profit_swap = Option.some b)
    (hlt : ¬ b.swap.abs_profit_eth ext < r.swap.abs_profit_eth ext)
    (hp : s.validity_pct = Option.none) :
    profit_block ext s r ok = (s, ok) := by
  simp [profit_block, hb, hlt, hp]

/-- The profit block's outcome with accumulator `ok` is its outcome with a
`false` accumulator, or-ed with `ok`. -/
theorem profit_block_or (ext : ExtFuns) (s : TxComposeBest) (r : TxComposeData)
    (ok : Bool) :
    profit_block ext s r ok
      = ((profit_block ext s r false).1, ok || (profit_block ext s r false).2) := by
  cases hb : s.best_profit_swap with
  | none => simp [profit_block_none ext s r _ hb]
  | some b =>
    by_cases hlt : b.swap.abs_profit_eth ext < r.swap.abs_profit_eth ext
    · simp [profit_block_gt ext s r _ b hb hlt]
    · cases hp : s.validity_pct with
      | none => simp [profit_block_nopct ext s r _ b hb hlt hp]
      | some pct =>
        rw [profit_block_tol ext s r ok b pct hb hlt hp,
          profit_block_tol ext s r false b pct hb hlt hp]
        by_cases hc : u256_mul (b.swap.abs_profit_eth ext) pct / 10000
            < r.swap.abs_profit_eth ext
        · simp [hc]
        · simp [hc]

/-- The profit block touches no field but `best_profit_swap`. -/
theorem profit_block_frame (ext : ExtFuns) (s : TxComposeBest) (r : TxComposeData)
    (ok : Bool) :
    (profit_block ext s r ok).1.validity_pct = s.validity_pct ∧
    (profit_block ext s r ok).1.best_tips_swap = s.best_tips_swap ∧
    (profit_block ext s r ok).1.best_tips_gas_ratio_swap = s.best_tips_gas_ratio_swap ∧
    (profit_block ext s r ok).1.best_profit_gas_ratio_swap
        = s.best_profit_gas_ratio_swap := by
  cases hb : s.best_profit_swap with
  | none => simp [profit_block_none ext s r ok hb]
  | some b =>
    by_cases hlt : b.swap.abs_profit_eth ext < r.swap.abs_profit_eth ext
    · simp [profit_block_gt ext s r ok b hb hlt]
    · cases hp : s.validity_pct with
      | none => simp [profit_block_nopct ext s r ok b hb hlt hp, hp]
      | some pct => simp [profit_block_tol ext s r ok b pct hb hlt hp, hp]

/-- The profit slot is never cleared and its score never decreases. -/
theorem profit_block_mono (ext : ExtFuns) (s : TxComposeBest) (r : TxComposeData)
    (ok : Bool) (b : TxComposeData) (hb : s.best_profit_swap = Option.some b) :
    ∃ c, (profit_block ext s r ok).1.best_profit_swap = Option.some c ∧
      b.swap.abs_profit_eth ext ≤ c.swap.abs_profit_eth ext := by
  by_cases hlt : b.swap.abs_profit_eth ext < r.swap.abs_profit_eth ext
  · exact ⟨r, by simp [profit_block_gt ext s r ok b hb hlt], Nat.le_of_lt hlt⟩
  · cases hp : s.validity_pct with
    | none => exact ⟨b, by simp [profit_block_nopct ext s r ok b hb hlt hp, hb],
        Nat.le_refl _⟩
    | some pct => exact ⟨b, by simp [profit_block_tol ext s r ok b pct hb hlt hp, hb],
        Nat.le_refl _⟩

/-- A candidate with no tip skips the tip-amount block entirely. -/
theorem tips_block_notip (s : TxComposeBest) (r : TxComposeData) (ok : Bool)
    (ht : r.tips = Option.none) :
    tips_block s r ok = (s, ok) := by
  simp [tips_block, ht]

/-- With a tip present and an empty tip slot, the candidate fills the slot
and is accepted. -/
theorem tips_block_none (s : TxComposeBest) (r : TxComposeData) (ok : Bool)
    (ht : r.tips.isSome = true) (hb : s.best_tips_swap = Option.none) :
    tips_block s r ok = ({ s with best_tips_swap := Option.some r }, true) := by
  simp [tips_block, ht, hb]

/-- With a tip present, a strictly larger tip replaces the tip best and is
accepted. -/
theorem tips_block_gt (s : TxComposeBest) (r : TxComposeData) (ok : Bool)
    (b : TxComposeData) (ht : r.tips.isSome = true)
    (hb : s.best_tips_swap = Option.some b)
    (hlt : b.tips.getD 0 < r.tips.getD 0) :
    tips_block s r ok = ({ s with best_tips_swap := Option.some r }, true) := by
  simp [tips_block, ht, hb, hlt]

/-- With a tip present, a tolerance configured and no strict improvement,
the state is unchanged and acceptance is exactly the tolerance-band test. -/
theorem tips_block_tol (s : TxComposeBest) (r : TxComposeData) (ok : Bool)
    (b : TxComposeData) (pct : Nat) (ht : r.tips.isSome = true)
    (hb : s.best_tips_swap = Option.some b)
    (hlt : ¬ b.tips.getD 0 < r.tips.getD 0)
    (hp : s.validity_pct = Option.some pct) :
    tips_block s r ok
      = (s, if u256_mul (b.tips.getD 0) pct / 10000 < r.tips.getD 0
              then true else ok) := by
  simp [tips_block, ht, hb, hlt, hp]
  by_cases hc : u256_mul (b.tips.getD 0) pct / 10000 < r.tips.getD 0 <;> simp [hc]

/-- With a tip present, no tolerance and no strict improvement, nothing
changes. -/
theorem tips_block_nopct (s : TxComposeBest) (r : TxComposeData) (ok : Bool)
    (b : TxComposeData) (ht : r.tips.isSome = true)
    (hb : s.best_tips_swap = Option.some b)
    (hlt : ¬ b.tips.getD 0 < r.tips.getD 0)
    (hp : s.validity_pct = Option.none) :
    tips_block s r ok = (s, ok) := by
  simp [tips_block, ht, hb, hlt, hp]

/-- The tip block's outcome with accumulator `ok` is its outcome with a
`false` accumulator, or-ed with `ok`. -/
theorem tips_block_or (s : TxComposeBest) (r : TxComposeData) (ok : Bool) :
    tips_block s r ok
      = ((tips_block s r false).1, ok || (tips_block s r false).2) := by
  cases ht : r.tips with
  | none => simp [tips_block_notip s r _ ht]
  | some tv =>
    have hts : r.tips.isSome = true := by rw [ht]; rfl
    cases hb : s.best_tips_swap with
    | none => simp [tips_block_none s r _ hts hb]
    | some b =>
      by_cases hlt : b.tips.getD 0 < r.tips.getD 0
      · simp [tips_block_gt s r _ b hts hb hlt]
      · cases hp : s.validity_pct with
        | none => simp [tips_block_nopct s r _ b hts hb hlt hp]
        | some pct =>
          rw [tips_block_tol s r ok b pct hts hb hlt hp,
            tips_block_tol s r false b pct hts hb hlt hp]
          by_cases hc : u256_mul (b.tips.getD 0) pct / 10000 < r.tips.getD 0
          · simp [hc]
          · simp [hc]

/-- The tip block touches no field but `best_tips_swap`. -/
theorem tips_block_frame (s : TxComposeBest) (r : TxComposeData) (ok : Bool) :
    (tips_block s r ok).1.validity_pct = s.validity_pct ∧
    (tips_block s r ok).1.best_profit_swap = s.best_profit_swap ∧
    (tips_block s r ok).1.best_tips_gas_ratio_swap = s.best_tips_gas_ratio_swap ∧
    (tips_block s r ok).1.best_profit_gas_ratio_swap = s.best_profit_gas_ratio_swap := by
  cases ht : r.tips with
  | none => simp [tips_block_notip s r ok ht]
  | some tv =>
    have hts : r.tips.isSome = true := by rw [ht]; rfl
    cases hb : s.best_tips_swap with
    | none => simp [tips_block_none s r ok hts hb]
    | some b =>
      by_cases hlt : b.tips.getD 0 < r.tips.getD 0
      · simp [tips_block_gt s r ok b hts hb hlt]
      · cases hp : s.validity_pct with
        | none => simp [tips_block_nopct s r ok b hts hb hlt hp, hp]
        | some pct => simp [tips_block_tol s r ok b pct hts hb hlt hp, hp]

/-- The tip slot is never cleared and its score never decreases. -/
theorem tips_block_mono (s : TxComposeBest) (r : TxComposeData) (ok : Bool)
    (b : TxComposeData) (hb : s.best_tips_swap = Option.some b) :
    ∃ c, (tips_block s r ok).1.best_tips_swap = Option.some c ∧
      b.tips.getD 0 ≤ c.tips.getD 0 := by
  cases ht : r.tips with
  | none => exact ⟨b, by simp [tips_block_notip s r ok ht, hb], Nat.le_refl _⟩
  | some tv =>
    have hts : r.tips.isSome = true := by rw [ht]; rfl
    by_cases hlt : b.tips.getD 0 < r.tips.getD 0
    · exact ⟨r, by simp [tips_block_gt s r ok b hts hb hlt], Nat.le_of_lt hlt⟩
    · cases hp : s.validity_pct with
      | none => exact ⟨b, by simp [tips_block_nopct s r ok b hts hb hlt hp, hb],
          Nat.le_refl _⟩
      | some pct => exact ⟨b, by simp [tips_block_tol s r ok b pct hts hb hlt hp, hb],
          Nat.le_refl _⟩

/-- A zero-gas candidate skips the tip/gas block entirely. -/
theorem tips_gas_block_nogas (s : TxComposeBest) (r : TxComposeData) (ok : Bool)
    (hg : r.gas = 0) :
    tips_gas_block s r ok = (s, ok) := by
  simp [tips_gas_block, hg]

/-- Non-zero gas, empty tip/gas slot: the candidate fills the slot and is
accepted. -/
theorem tips_gas_block_none (s : TxComposeBest) (r : TxComposeData) (ok : Bool)
    (hg : r.gas ≠ 0) (hb : s.best_tips_gas_ratio_swap = Option.none) :
    tips_gas_block s r ok
      = ({ s with best_tips_gas_ratio_swap := Option.some r }, true) := by
  simp [tips_gas_block, hg, hb]

/-- Non-zero gas, strictly larger tip/gas ratio: replaces the slot and is
accepted. -/
theorem tips_gas_block_gt (s : TxComposeBest) (r : TxComposeData) (ok : Bool)
    (b : TxComposeData) (hg : r.gas ≠ 0)
    (hb : s.best_tips_gas_ratio_swap = Option.some b)
    (hlt : b.tips_gas_ratio < r.tips_gas_ratio) :
    tips_gas_block s r ok
      = ({ s with best_tips_gas_ratio_swap := Option.some r }, true) := by
  simp [tips_gas_block, hg, hb, hlt]

/-- Non-zero gas, tolerance configured, no strict improvement: state
unchanged, acceptance is the tolerance-band test. -/
theorem tips_gas_block_tol (s : TxComposeBest) (r : TxComposeData) (ok : Bool)
    (b : TxComposeData) (pct : Nat) (hg : r.gas ≠ 0)
    (hb : s.best_tips_gas_ratio_swap = Option.some b)
    (hlt : ¬ b.tips_gas_ratio < r.tips_gas_ratio)
    (hp : s.validity_pct = Option.some pct) :
    tips_gas_block s r ok
      = (s, if u256_mul b.tips_gas_ratio pct / 10000 < r.tips_gas_ratio
              then true else ok) := by
  simp [tips_gas_block, hg, hb, hlt, hp]
  by_cases hc : u256_mul b.tips_gas_ratio pct / 10000 < r.tips_gas_ratio <;> simp [hc]

/-- Non-zero gas, no tolerance, no strict improvement: nothing changes. -/
theorem tips_gas_block_nopct (s : TxComposeBest) (r : TxComposeData) (ok : Bool)
    (b : TxComposeData) (hg : r.gas ≠ 0)
    (hb : s.best_tips_gas_ratio_swap = Option.some b)
    (hlt : ¬ b.tips_gas_ratio < r.tips_gas_ratio)
    (hp : s.validity_pct = Option.none) :
    tips_gas_block s r ok = (s, ok) := by
  simp [tips_gas_block, hg, hb, hlt, hp]

/-- The tip/gas block's outcome with accumulator `ok` is its outcome with a
`false` accumulator, or-ed with `ok`. -/
theorem tips_gas_block_or (s : TxComposeBest) (r : TxComposeData) (ok : Bool) :
    tips_gas_block s r ok
      = ((tips_gas_block s r false).1, ok || (tips_gas_block s r false).2) := by
  by_cases hg : r.gas = 0
  · simp [tips_gas_block_nogas s r _ hg]
  · cases hb : s.best_tips_gas_ratio_swap with
    | none => simp [tips_gas_block_none s r _ hg hb]
    | some b =>
      by_cases hlt : b.tips_gas_ratio < r.tips_gas_ratio
      · simp [tips_gas_block_gt s r _ b hg hb hlt]
      · cases hp : s.validity_pct with
        | none => simp [tips_gas_block_nopct s r _ b hg hb hlt hp]
        | some pct =>
          rw [tips_gas_block_tol s r ok b pct hg hb hlt hp,
            tips_gas_block_tol s r false b pct hg hb hlt hp]
          by_cases hc : u256_mul b.tips_gas_ratio pct / 10000 < r.tips_gas_ratio
          · simp [hc]
          · simp [hc]

/-- The tip/gas block touches no field but `best_tips_gas_ratio_swap`. -/
theorem tips_gas_block_frame (s : TxComposeBest) (r : TxComposeData) (ok : Bool) :
    (tips_gas_block s r ok).1.validity_pct = s.validity_pct ∧
    (tips_gas_block s r ok).1.best_profit_swap = s.best_profit_swap ∧
    (tips_gas_block s r ok).1.best_tips_swap = s.best_tips_swap ∧
    (tips_gas_block s r ok).1.best_profit_gas_ratio_swap
        = s.best_profit_gas_ratio_swap := by
  by_cases hg : r.gas = 0
  · simp [tips_gas_block_nogas s r ok hg]
  · cases hb : s.best_tips_gas_ratio_swap with
    | none => simp [tips_gas_block_none s r ok hg hb]
    | some b =>
      by_cases hlt : b.tips_gas_ratio < r.tips_gas_ratio
      · simp [tips_gas_block_gt s r ok b hg hb hlt]
      · cases hp : s.validity_pct with
        | none => simp [tips_gas_block_nopct s r ok b hg hb hlt hp, hp]
        | some pct => simp [tips_gas_block_tol s r ok b pct hg hb hlt hp, hp]

/-- The tip/gas slot is never cleared and its score never decreases. -/
theorem tips_gas_block_mono (s : TxComposeBest) (r : TxComposeData) (ok : Bool)
    (b : TxComposeData) (hb : s.best_tips_gas_ratio_swap = Option.some b) :
    ∃ c, (tips_gas_block s r ok).1.best_tips_gas_ratio_swap = Option.some c ∧
      b.tips_gas_ratio ≤ c.tips_gas_ratio := by
  by_cases hg : r.gas = 0
  · exact ⟨b, by simp [tips_gas_block_nogas s r ok hg, hb], Nat.le_refl _⟩
  · by_cases hlt : b.tips_gas_ratio < r.tips_gas_ratio
    · exact ⟨r, by simp [tips_gas_block_gt s r ok b hg hb hlt], Nat.le_of_lt hlt⟩
    · cases hp : s.validity_pct with
      | none => exact ⟨b, by simp [tips_gas_block_nopct s r ok b hg hb hlt hp, hb],
          Nat.le_refl _⟩
      | some pct =>
          exact ⟨b, by simp [tips_gas_block_tol s r ok b pct hg hb hlt hp, hb],
            Nat.le_refl _⟩

/-- A zero-gas candidate skips the profit/gas block entirely. -/
theorem profit_gas_block_nogas (ext : ExtFuns) (s : TxComposeBest)
    (r : TxComposeData) (ok : Bool) (hg : r.gas = 0) :
    profit_gas_block ext s r ok = (s, ok) := by
  simp [profit_gas_block, hg]

/-- Non-zero gas, empty profit/gas slot: the candidate fills the slot and is
accepted. -/
theorem profit_gas_block_none (ext : ExtFuns) (s : TxComposeBest)
    (r : TxComposeData) (ok : Bool) (hg : r.gas ≠ 0)
    (hb : s.best_profit_gas_ratio_swap = Option.none) :
    profit_gas_block ext s r ok
      = ({ s with best_profit_gas_ratio_swap := Option.some r }, true) := by
  simp [profit_gas_block, hg, hb]

/-- Non-zero gas, strictly larger profit/gas ratio: replaces the slot and is
accepted. -/
theorem profit_gas_block_gt (ext : ExtFuns) (s : TxComposeBest)
    (r : TxComposeData) (ok : Bool) (b : TxComposeData) (hg : r.gas ≠ 0)
    (hb : s.best_profit_gas_ratio_swap = Option.some b)
    (hlt : b.profit_eth_gas_ratio ext < r.profit_eth_gas_ratio ext) :
    profit_gas_block ext s r ok
      = ({ s with best_profit_gas_ratio_swap := Option.some r }, true) := by
  simp [profit_gas_block, hg, hb, hlt]

/-- Non-zero gas, tolerance configured, no strict improvement: state
unchanged, acceptance is the tolerance-band test. -/
theorem profit_gas_block_tol (ext : ExtFuns) (s : TxComposeBest)
    (r : TxComposeData) (ok : Bool) (b : TxComposeData) (pct : Nat)
    (hg : r.gas ≠ 0) (hb : s.best_profit_gas_ratio_swap = Option.some b)
    (hlt : ¬ b.profit_eth_gas_ratio ext < r.profit_eth_gas_ratio ext)
    (hp : s.validity_pct = Option.some pct) :
    profit_gas_block ext s r ok
      = (s, if u256_mul (b.profit_eth_gas_ratio ext) pct / 10000
              < r.profit_eth_gas_ratio ext then true else ok) := by
  simp [profit_gas_block, hg, hb, hlt, hp]
  by_cases hc : u256_mul (b.profit_eth_gas_ratio ext) pct / 10000
      < r.profit_eth_gas_ratio ext <;> simp [hc]

/-- Non-zero gas, no tolerance, no strict improvement: nothing changes. -/
theorem profit_gas_block_nopct (ext : ExtFuns) (s : TxComposeBest)
    (r : TxComposeData) (ok : Bool) (b : TxComposeData) (hg : r.gas ≠ 0)
    (hb : s.best_profit_gas_ratio_swap = Option.some b)
    (hlt : ¬ b.profit_eth_gas_ratio ext < r.profit_eth_gas_ratio ext)
    (hp : s.validity_pct = Option.none) :
    profit_gas_block ext s r ok = (s, ok) := by
  simp [profit_gas_block, hg, hb, hlt, hp]

/-- The profit/gas block's outcome with accumulator `ok` is its outcome with
a `false` accumulator, or-ed with `ok`. -/
theorem profit_gas_block_or (ext : ExtFuns) (s : TxComposeBest)
    (r : TxComposeData) (ok : Bool) :
    profit_gas_block ext s r ok
      = ((profit_gas_block ext s r false).1,
          ok || (profit_gas_block ext s r false).2) := by
  by_cases hg : r.gas = 0
  · simp [profit_gas_block_nogas ext s r _ hg]
  · cases hb : s.best_profit_gas_ratio_swap with
    | none => simp [profit_gas_block_none ext s r _ hg hb]
    | some b =>
      by_cases hlt : b.profit_eth_gas_ratio ext < r.profit_eth_gas_ratio ext
      · simp [profit_gas_block_gt ext s r _ b hg hb hlt]
      · cases hp : s.validity_pct with
        | none => simp [profit_gas_block_nopct ext s r _ b hg hb hlt hp]
        | some pct =>
          rw [profit_gas_block_tol ext s r ok b pct hg hb hlt hp,
            profit_gas_block_tol ext s r false b pct hg hb hlt hp]
          by_cases hc : u256_mul (b.profit_eth_gas_ratio ext) pct / 10000
              < r.profit_eth_gas_ratio ext
          · simp [hc]
          · simp [hc]

/-- The profit/gas block touches no field but `best_profit_gas_ratio_swap`. -/
theorem profit_gas_block_frame (ext : ExtFuns) (s : TxComposeBest)
    (r : TxComposeData) (ok : Bool) :
    (profit_gas_block ext s r ok).1.validity_pct = s.validity_pct ∧
    (profit_gas_block ext s r ok).1.best_profit_swap = s.best_profit_swap ∧
    (profit_gas_block ext s r ok).1.best_tips_swap = s.best_tips_swap ∧
    (profit_gas_block ext s r ok).1.best_tips_gas_ratio_swap
        = s.best_tips_gas_ratio_swap := by
  by_cases hg : r.gas = 0
  · simp [profit_gas_block_nogas ext s r ok hg]
  · cases hb : s.best_profit_gas_ratio_swap with
    | none => simp [profit_gas_block_none ext s r ok hg hb]
    | some b =>
      by_cases hlt : b.profit_eth_gas_ratio ext < r.profit_eth_gas_ratio ext
      · simp [profit_gas_block_gt ext s r ok b hg hb hlt]
      · cases hp : s.validity_pct with
        | none => simp [profit_gas_block_nopct ext s r ok b hg hb hlt hp, hp]
        | some pct => simp [profit_gas_block_tol ext s r ok b pct hg hb hlt hp, hp]

/-- The profit/gas slot is never cleared and its score never decreases. -/
theorem profit_gas_block_mono (ext : ExtFuns) (s : TxComposeBest)
    (r : TxComposeData) (ok : Bool) (b : TxComposeData)
    (hb : s.best_profit_gas_ratio_swap = Option.some b) :
    ∃ c, (profit_gas_block ext s r ok).1.best_profit_gas_ratio_swap = Option.some c ∧
      b.profit_eth_gas_ratio ext ≤ c.profit_eth_gas_ratio ext := by
  by_cases hg : r.gas = 0
  · exact ⟨b, by simp [profit_gas_block_nogas ext s r ok hg, hb], Nat.le_refl _⟩
  · by_cases hlt : b.profit_eth_gas_ratio ext < r.profit_eth_gas_ratio ext
    · exact ⟨r, by simp [profit_gas_block_gt ext s r ok b hg hb hlt], Nat.le_of_lt hlt⟩
    · cases hp : s.validity_pct with
      | none =>
          exact ⟨b, by simp [profit_gas_block_nopct ext s r ok b hg hb hlt hp, hb],
            Nat.le_refl _⟩
      | some pct =>
          exact ⟨b, by simp [profit_gas_block_tol ext s r ok b pct hg hb hlt hp, hb],
            Nat.le_refl _⟩

/-- `check` never modifies the configured tolerance. -/
theorem check_pct (ext : ExtFuns) (s : TxComposeBest) (r : TxComposeData) :
    (s.check ext r).1.validity_pct = s.validity_pct := by
  simp only [TxComposeBest.check]
  rw [(profit_gas_block_frame ext _ r _).1, (tips_gas_block_frame _ r _).1,
    (tips_block_frame _ r _).1, (profit_block_frame ext s r false).1]

/-- The profit slot after `check` is whatever the profit block left there. -/
theorem check_profit_slot (ext : ExtFuns) (s : TxComposeBest) (r : TxComposeData) :
    (s.check ext r).1.best_profit_swap = (profit_block ext s r false).1.best_profit_swap := by
  simp only [TxComposeBest.check]
  rw [(profit_gas_block_frame ext _ r _).2.1, (tips_gas_block_frame _ r _).2.1,
    (tips_block_frame _ r _).2.1]

/-- `check` accepts a candidate exactly when at least one of the four
dimension blocks accepts it. -/
theorem check_or (ext : ExtFuns) (s : TxComposeBest) (r : TxComposeData) :
    (s.check ext r).2
      = ((profit_block ext s r false).2
        || ((tips_block (profit_block ext s r false).1 r false).2
        || ((tips_gas_block (tips_block (profit_block ext s r false).1 r false).1
              r false).2
        || (profit_gas_block ext
              (tips_gas_block (tips_block (profit_block ext s r false).1 r false).1
                r false).1 r false).2))) := by
  simp only [TxComposeBest.check]
  rw [tips_block_or, tips_gas_block_or, profit_gas_block_or]
  simp [Bool.or_assoc]

/-- If the profit block accepts, the whole `check` call accepts. -/
theorem check_profit_accepts (ext : ExtFuns) (s : TxComposeBest) (r : TxComposeData)
    (h : (profit_block ext s r false).2 = true) :
    (s.check ext r).2 = true := by
  rw [check_or, h]
  simp

/-- A strictly more profitable candidate than the recorded profit best is
accepted by `check`, and the profit slot then records it. -/
theorem check_strict_profit (ext : ExtFuns) (s : TxComposeBest) (r : TxComposeData)
    (b : TxComposeData) (hb : s.best_profit_swap = Option.some b)
    (hlt : b.swap.abs_profit_eth ext < r.swap.abs_profit_eth ext) :
    (s.check ext r).2 = true ∧
    (s.check ext r).1.best_profit_swap = Option.some r := by
  constructor
  · apply check_profit_accepts
    rw [profit_block_gt ext s r false b hb hlt]
  · rw [check_profit_slot, profit_block_gt ext s r false b hb hlt]

/-- The first candidate offered to a selector with an empty profit slot is
accepted, and the profit slot then records it. -/
theorem check_fresh_profit (ext : ExtFuns) (s : TxComposeBest) (r : TxComposeData)
    (hb : s.best_profit_swap = Option.none) :
    (s.check ext r).2 = true ∧
    (s.check ext r).1.best_profit_swap = Option.some r := by
  constructor
  · apply check_profit_accepts
    rw [profit_block_none ext s r false hb]
  · rw [check_profit_slot, profit_block_none ext s r false hb]

/-- On a fresh selector the first `check` accepts and produces
`first_best`. -/
theorem check_default_state (ext : ExtFuns) (r : TxComposeData) :
    TxComposeBest.default.check ext r = (first_best ext r, true) := by
  have h := (check_fresh_profit ext TxComposeBest.default r rfl).1
  exact Prod.ext rfl h

/-- The shape of `first_best`: the profit slot holds the candidate, the tip
slot holds it iff it has a tip, the two gas-ratio slots hold it iff its gas
is non-zero, and no tolerance is configured. -/
theorem first_best_eq (ext : ExtFuns) (r : TxComposeData) :
    first_best ext r
      = ⟨Option.none, Option.some r,
          (if r.gas = 0 then Option.none else Option.some r),
          (if r.tips.isSome then Option.some r else Option.none),
          (if r.gas = 0 then Option.none else Option.some r)⟩ := by
  by_cases ht : r.tips.isSome <;> by_cases hg : r.gas = 0 <;>
    simp [first_best, TxComposeBest.check, profit_block, tips_block, tips_gas_block,
      profit_gas_block, TxComposeBest.default, ht, hg]

/-- After the first candidate `r`, a candidate `x` with the same scoring
values (profit-in-eth, tip, gas) changes nothing and is rejected: no slot is
strictly beaten and no tolerance is configured. -/
theorem check_steady (ext : ExtFuns) (r x : TxComposeData)
    (hpe : x.swap.abs_profit_eth ext = r.swap.abs_profit_eth ext)
    (htx : x.tips = r.tips) (hgx : x.gas = r.gas) :
    (first_best ext r).check ext x = (first_best ext r, false) := by
  by_cases ht : r.tips.isSome <;> by_cases hg : r.gas = 0 <;>
    simp [first_best_eq ext r, TxComposeBest.check, profit_block, tips_block,
      tips_gas_block, profit_gas_block, TxComposeData.tips_gas_ratio,
      TxComposeData.profit_eth_gas_ratio, ht, hg, hpe, htx, hgx]

/-- Score-equal candidates after the first all get rejected and leave the
selector state untouched. -/
theorem run_check_constant (ext : ExtFuns) (r : TxComposeData) :
    ∀ rest : List TxComposeData,
      (∀ x ∈ rest, x.swap.abs_profit_eth ext = r.swap.abs_profit_eth ext ∧
        x.tips = r.tips ∧ x.gas = r.gas) →
      run_check ext (first_best ext r) rest
        = (first_best ext r, List.replicate rest.length false) := by
  intro rest
  induction rest with
  | nil => intro _; rfl
  | cons x xs ih =>
    intro h
    have hx := h x (List.mem_cons_self x xs)
    have hxs := fun y hy => h y (List.mem_cons_of_mem x hy)
    simp only [run_check]
    rw [check_steady ext r x hx.1 hx.2.1 hx.2.2]
    simp only []
    rw [ih hxs]
    simp [List.replicate_succ]

/-- A strictly profit-increasing run keeps accepting: if the profit slot
holds the head of a strictly increasing chain, every remaining candidate is
accepted. -/
theorem run_check_increasing (ext : ExtFuns) :
    ∀ (rs : List TxComposeData) (s : TxComposeBest) (rl : TxComposeData),
      s.best_profit_swap = Option.some rl →
      List.Chain'
        (fun a b => a.swap.abs_profit_eth ext < b.swap.abs_profit_eth ext)
        (rl :: rs) →
      (run_check ext s rs).2.all id = true := by
  intro rs
  induction rs with
  | nil => intro s rl _ _; rfl
  | cons r rs' ih =>
    intro s rl hb hch
    rw [List.chain'_cons] at hch
    obtain ⟨hlt, hch'⟩ := hch
    obtain ⟨hacc, hslot⟩ := check_strict_profit ext s r rl hb hlt
    simp only [run_check, List.all_cons, Bool.and_eq_true]
    exact ⟨hacc, ih (s.check ext r).1 r hslot hch'⟩

/-- C2: in every dimension of `check`, when a current best exists and the
candidate does not strictly exceed it but a tolerance is configured, the
candidate is accepted (the dimension contributes `true` to the `is_ok`
accumulator) exactly when `best * tolerance_bps / 10000 < candidate_value`
(with the code's wrapping `U256` multiplication), and the recorded best is
not replaced; concretely, with tolerance 9000 bps and best profit 100, a
profit-95 candidate is accepted without replacing the best, and a profit-80
candidate is rejected. -/
theorem tolerance_band_acceptance :
    (∀ (ext : ExtFuns) (s : TxComposeBest) (r : TxComposeData) (ok : Bool)
        (b : TxComposeData) (pct : Nat),
      s.best_profit_swap = Option.some b → s.validity_pct = Option.some pct →
      ¬ b.swap.abs_profit_eth ext < r.swap.abs_profit_eth ext →
      profit_block ext s r ok
        = (s, if u256_mul (b.swap.abs_profit_eth ext) pct / 10000
                < r.swap.abs_profit_eth ext then true else ok)) ∧
    (∀ (s : TxComposeBest) (r : TxComposeData) (ok : Bool)
        (b : TxComposeData) (pct : Nat),
      r.tips.isSome = true → s.best_tips_swap = Option.some b →
      s.validity_pct = Option.some pct → ¬ b.tips.getD 0 < r.tips.getD 0 →
      tips_block s r ok
        = (s, if u256_mul (b.tips.getD 0) pct / 10000 < r.tips.getD 0
                then true else ok)) ∧
    (∀ (s : TxComposeBest) (r : TxComposeData) (ok : Bool)
        (b : TxComposeData) (pct : Nat),
      r.gas ≠ 0 → s.best_tips_gas_ratio_swap = Option.some b →
      s.validity_pct = Option.some pct → ¬ b.tips_gas_ratio < r.tips_gas_ratio →
      tips_gas_block s r ok
        = (s, if u256_mul b.tips_gas_ratio pct / 10000 < r.tips_gas_ratio
                then true else ok)) ∧
    (∀ (ext : ExtFuns) (s : TxComposeBest) (r : TxComposeData) (ok : Bool)
        (b : TxComposeData) (pct : Nat),
      r.gas ≠ 0 → s.best_profit_gas_ratio_swap = Option.some b →
      s.validity_pct = Option.some pct →
      ¬ b.profit_eth_gas_ratio ext < r.profit_eth_gas_ratio ext →
      profit_gas_block ext s r ok
        = (s, if u256_mul (b.profit_eth_gas_ratio ext) pct / 10000
                < r.profit_eth_gas_ratio ext then true else ok)) ∧
    best100.validity_pct = Option.some 9000 ∧
    best100.best_profit_swap = Option.some (profit_candidate 100) ∧
    best100.check ext0 (profit_candidate 95) = (best100, true) ∧
    best100.check ext0 (profit_candidate 80) = (best100, false) := by
  refine ⟨?_, ?_, ?_, ?_, rfl, rfl, rfl, rfl⟩
  · intro ext s r ok b pct hb hp hlt
    exact profit_block_tol ext s r ok b pct hb hlt hp
  · intro s r ok b pct ht hb hp hlt
    exact tips_block_tol s r ok b pct ht hb hlt hp
  · intro s r ok b pct hg hb hp hlt
    exact tips_gas_block_tol s r ok b pct hg hb hlt hp
  · intro ext s r ok b pct hg hb hp hlt
    exact profit_gas_block_tol ext s r ok b pct hg hb hlt hp

/-- C2 witness: the profit-dimension tolerance rule applied at the concrete
tolerance-9000, best-100, candidate-95 instance. -/
theorem tolerance_band_acceptance_witness :
    profit_block ext0 best100 (profit_candidate 95) false
      = (best100,
          if u256_mul ((profit_candidate 100).swap.abs_profit_eth ext0) 9000 / 10000
              < (profit_candidate 95).swap.abs_profit_eth ext0
          then true else false) :=
  tolerance_band_acceptance.1 ext0 best100 (profit_candidate 95) false
    (profit_candidate 100) 9000 rfl rfl (by decide)

/-- C3: on a fresh no-tolerance selector, (a) a strictly profit-increasing
candidate sequence is accepted in full (each candidate becomes the new
best); (b) after a first candidate, candidates with the same scoring values
are all rejected — only the first is accepted; (c) a `check` call accepts
exactly when at least one of the four dimension blocks accepts. -/
theorem selector_sequences (ext : ExtFuns) :
    (∀ rs : List TxComposeData,
      List.Chain'
        (fun a b => a.swap.abs_profit_eth ext < b.swap.abs_profit_eth ext) rs →
      (run_check ext TxComposeBest.default rs).2.all id = true) ∧
    (∀ (r : TxComposeData) (rest : List TxComposeData),
      (∀ x ∈ rest, x.swap.abs_profit_eth ext = r.swap.abs_profit_eth ext ∧
        x.tips = r.tips ∧ x.gas = r.gas) →
      (run_check ext TxComposeBest.default (r :: rest)).2
        = true :: List.replicate rest.length false) ∧
    (∀ (s : TxComposeBest) (r : TxComposeData),
      (s.check ext r).2
        = ((profit_block ext s r false).2
          || ((tips_block (profit_block ext s r false).1 r false).2
          || ((tips_gas_block (tips_block (profit_block ext s r false).1 r false).1
                r false).2
          || (profit_gas_block ext
                (tips_gas_block (tips_block (profit_block ext s r false).1 r
                  false).1 r false).1 r false).2)))) := by
  refine ⟨?_, ?_, fun s r => check_or ext s r⟩
  · intro rs hch
    cases rs with
    | nil => rfl
    | cons r rs' =>
      obtain ⟨hacc, hslot⟩ := check_fresh_profit ext TxComposeBest.default r rfl
      simp only [run_check, List.all_cons, Bool.and_eq_true]
      exact ⟨hacc, run_check_increasing ext rs' (TxComposeBest.default.check ext r).1
        r hslot hch⟩
  · intro r rest h
    simp only [run_check]
    rw [check_default_state ext r]
    simp only []
    rw [run_check_constant ext r rest h]

/-- C3 witness: profits 1 then 2 are both accepted; a repeated identical
candidate is accepted only the first time; the or-decomposition at a
concrete call. -/
theorem selector_sequences_witness :
    (run_check ext0 TxComposeBest.default
        [profit_candidate 1, profit_candidate 2]).2.all id = true ∧
    (run_check ext0 TxComposeBest.default
        [profit_candidate 1, profit_candidate 1]).2
      = true :: List.replicate 1 false ∧
    (TxComposeBest.default.check ext0 (profit_candidate 1)).2
      = ((profit_block ext0 TxComposeBest.default (profit_candidate 1) false).2
        || ((tips_block (profit_block ext0 TxComposeBest.default (profit_candidate 1)
              false).1 (profit_candidate 1) false).2
        || ((tips_gas_block (tips_block (profit_block ext0 TxComposeBest.default
              (profit_candidate 1) false).1 (profit_candidate 1) false).1
              (profit_candidate 1) false).2
        || (profit_gas_block ext0
              (tips_gas_block (tips_block (profit_block ext0 TxComposeBest.default
                (profit_candidate 1) false).1 (profit_candidate 1) false).1
                (profit_candidate 1) false).1 (profit_candidate 1) false).2))) := by
  refine ⟨?_, ?_, ?_⟩
  · exact (selector_sequences ext0).1 [profit_candidate 1, profit_candidate 2]
      (by rw [List.chain'_cons]; exact ⟨by decide, List.chain'_singleton _⟩)
  · exact (selector_sequences ext0).2.1 (profit_candidate 1) [profit_candidate 1]
      (by decide)
  · exact (selector_sequences ext0).2.2 TxComposeBest.default (profit_candidate 1)

/-- C7 counterexample: the tip/gas-ratio dimension is NOT gated on the tip
being defined — only on non-zero gas.  A candidate with no tip but gas 1
offered to a fresh selector mutates the tip/gas best slot (the dimension was
evaluated, with the absent tip read as zero). -/
theorem tips_gas_dim_runs_without_tip :
    gas_only_candidate.tips = Option.none ∧
    gas_only_candidate.gas ≠ 0 ∧
    (TxComposeBest.default.check ext0 gas_only_candidate).1.best_tips_gas_ratio_swap
      = Option.some gas_only_candidate := by
  exact ⟨rfl, by decide, rfl⟩

/-- C7 (amended): the tip-amount dimension is only evaluated when the
candidate has a defined tip; BOTH gas-ratio dimensions (tip/gas and
profit/gas) are evaluated iff the candidate's gas is non-zero, the tip/gas
dimension reading an absent tip as zero; and the ratio helpers
`tips_gas_ratio` and `profit_eth_gas_ratio` return zero whenever gas is
zero, for any tip/profit value, never dividing by zero. -/
theorem gating_and_zero_ratios :
    (∀ (ext : ExtFuns) (r : TxComposeData), r.gas = 0 →
      r.tips_gas_ratio = 0 ∧ r.profit_eth_gas_ratio ext = 0) ∧
    (∀ (s : TxComposeBest) (r : TxComposeData) (ok : Bool), r.gas = 0 →
      tips_gas_block s r ok = (s, ok)) ∧
    (∀ (ext : ExtFuns) (s : TxComposeBest) (r : TxComposeData) (ok : Bool),
      r.gas = 0 → profit_gas_block ext s r ok = (s, ok)) ∧
    (∀ (s : TxComposeBest) (r : TxComposeData) (ok : Bool),
      r.tips = Option.none → tips_block s r ok = (s, ok)) := by
  refine ⟨?_, ?_, ?_, ?_⟩
  · intro ext r hg
    constructor
    · simp [TxComposeData.tips_gas_ratio, hg]
    · simp [TxComposeData.profit_eth_gas_ratio, hg]
  · intro s r ok hg
    exact tips_gas_block_nogas s r ok hg
  · intro ext s r ok hg
    exact profit_gas_block_nogas ext s r ok hg
  · intro s r ok ht
    exact tips_block_notip s r ok ht

/-- C7 witness: a zero-gas, no-tip candidate has zero ratios and skips the
tip and both gas-ratio blocks. -/
theorem gating_and_zero_ratios_witness :
    (profit_candidate 3).tips_gas_ratio = 0 ∧
    (profit_candidate 3).profit_eth_gas_ratio ext0 = 0 ∧
    tips_gas_block TxComposeBest.default (profit_candidate 3) false
      = (TxComposeBest.default, false) ∧
    profit_gas_block ext0 TxComposeBest.default (profit_candidate 3) false
      = (TxComposeBest.default, false) ∧
    tips_block TxComposeBest.default (profit_candidate 3) false
      = (TxComposeBest.default, false) :=
  ⟨(gating_and_zero_ratios.1 ext0 (profit_candidate 3) rfl).1,
   (gating_and_zero_ratios.1 ext0 (profit_candidate 3) rfl).2,
   gating_and_zero_ratios.2.1 TxComposeBest.default (profit_candidate 3) false rfl,
   gating_and_zero_ratios.2.2.1 ext0 TxComposeBest.default (profit_candidate 3)
     false rfl,
   gating_and_zero_ratios.2.2.2 TxComposeBest.default (profit_candidate 3) false rfl⟩

/-- C10: across any `check` call (hence any sequence of calls on one
selector), the configured tolerance is never modified, an occupied best
slot never goes back to empty, and the scoring value recorded in each slot
(profit-in-eth, tip amount, tip/gas ratio, profit/gas ratio respectively)
never decreases. -/
theorem selector_slots_monotone (ext : ExtFuns) (s : TxComposeBest)
    (r : TxComposeData) :
    ((s.check ext r).1.validity_pct = s.validity_pct) ∧
    (∀ b, s.best_profit_swap = Option.some b →
      ∃ c, (s.check ext r).1.best_profit_swap = Option.some c ∧
        b.swap.abs_profit_eth ext ≤ c.swap.abs_profit_eth ext) ∧
    (∀ b, s.best_tips_swap = Option.some b →
      ∃ c, (s.check ext r).1.best_tips_swap = Option.some c ∧
        b.tips.getD 0 ≤ c.tips.getD 0) ∧
    (∀ b, s.best_tips_gas_ratio_swap = Option.some b →
      ∃ c, (s.check ext r).1.best_tips_gas_ratio_swap = Option.some c ∧
        b.tips_gas_ratio ≤ c.tips_gas_ratio) ∧
    (∀ b, s.best_profit_gas_ratio_swap = Option.some b →
      ∃ c, (s.check ext r).1.best_profit_gas_ratio_swap = Option.some c ∧
        b.profit_eth_gas_ratio ext ≤ c.profit_eth_gas_ratio ext) := by
  refine ⟨check_pct ext s r, ?_, ?_, ?_, ?_⟩
  · intro b hb
    rw [check_profit_slot ext s r]
    exact profit_block_mono ext s r false b hb
  · intro b hb
    simp only [TxComposeBest.check]
    rw [(profit_gas_block_frame ext _ r _).2.2.1, (tips_gas_block_frame _ r _).2.2.1]
    refine tips_block_mono _ r _ b ?_
    rw [(profit_block_frame ext s r false).2.1]
    exact hb
  · intro b hb
    simp only [TxComposeBest.check]
    rw [(profit_gas_block_frame ext _ r _).2.2.2]
    refine tips_gas_block_mono _ r _ b ?_
    rw [(tips_block_frame _ r _).2.2.1, (profit_block_frame ext s r false).2.2.1]
    exact hb
  · intro b hb
    simp only [TxComposeBest.check]
    refine profit_gas_block_mono ext _ r _ b ?_
    rw [(tips_gas_block_frame _ r _).2.2.2, (tips_block_frame _ r _).2.2.2,
      (profit_block_frame ext s r false).2.2.2]
    exact hb

/-- C10 witness: the invariants applied at a state with all four slots
occupied by `full_candidate` and that same candidate offered again. -/
theorem selector_slots_monotone_witness :
    ((s_full.check ext0 full_candidate).1.validity_pct = s_full.validity_pct) ∧
    (∃ c, (s_full.check ext0 full_candidate).1.best_profit_swap = Option.some c ∧
      full_candidate.swap.abs_profit_eth ext0 ≤ c.swap.abs_profit_eth ext0) ∧
    (∃ c, (s_full.check ext0 full_candidate).1.best_tips_swap = Option.some c ∧
      full_candidate.tips.getD 0 ≤ c.tips.getD 0) ∧
    (∃ c, (s_full.check ext0 full_candidate).1.best_tips_gas_ratio_swap
        = Option.some c ∧
      full_candidate.tips_gas_ratio ≤ c.tips_gas_ratio) ∧
    (∃ c, (s_full.check ext0 full_candidate).1.best_profit_gas_ratio_swap
        = Option.some c ∧
      full_candidate.profit_eth_gas_ratio ext0 ≤ c.profit_eth_gas_ratio ext0) := by
  have h := selector_slots_monotone ext0 s_full full_candidate
  exact ⟨h.1, h.2.1 full_candidate rfl, h.2.2.1 full_candidate rfl,
    h.2.2.2.1 full_candidate rfl, h.2.2.2.2 full_candidate rfl⟩

end Loom

